import Mathlib

/-!
Shallow embedding of the authentication service of the
Fullstack-Authentication repository, together with proofs checking the
natural-language specification against it.

Conventions of the embedding:
* Timestamps are `Nat` milliseconds (the value of `Date.now()`), except for
  bearer tokens, whose `iat`/`exp` claims are in seconds as in JWT.
* The SHA-256 digest of one-time codes (`hashCode` in the controller) and
  the bcrypt password digest / comparison are modelled as abstract function
  parameters: every theorem below is proved for an arbitrary digest
  function, and witnesses instantiate them with concrete functions.
* The persistent store is a `List User`; `findOne` returns the first user
  with the requested (already normalized) email, `save` writes a document
  back by id.  The mongoose pre-save hook (`preSave` below) runs on every
  save, as in the source.
* JavaScript string falsiness (`!s`) is modelled by comparison with `""`;
  `s?.trim() || fallback` idioms are translated field by field.
-/

namespace FullstackAuth

/-! ## JS string primitives used by the source -/

/-- ASCII whitespace characters of the JS regex class `\s` / `String.prototype.trim`. -/
def isSpaceCh (c : Char) : Bool :=
  c == ' ' || c == '\t' || c == '\n' || c == '\r' || c == Char.ofNat 11 || c == Char.ofNat 12

/-- Drop leading whitespace from a character list. -/
def dropLeadingWs : List Char → List Char
  | [] => []
  | c :: rest => if isSpaceCh c then dropLeadingWs rest else c :: rest

/-- Model of `String.prototype.trim`: strip leading and trailing whitespace. -/
def jsTrim (s : String) : String :=
  ⟨(dropLeadingWs (dropLeadingWs s.data).reverse).reverse⟩

/-- Model of `String.prototype.toLowerCase` restricted to ASCII, as the normalized
emails of this system only involve ASCII case. -/
def jsToLower (s : String) : String :=
  ⟨s.data.map Char.toLower⟩

/-- The email normalization `email.toLowerCase().trim()` applied at every
controller entry point. -/
def normalizeEmail (e : String) : String :=
  jsTrim (jsToLower e)

/-- A character matched by the `[^\s@]` atoms of the e-mail regex. -/
def isAtomCh (c : Char) : Bool :=
  !(c == '@') && !(isSpaceCh c)

/-- Match one or more `[^\s@]` characters and hand every possible remainder
to the continuation `k` (backtracking `+`). -/
def matchAtomPlus (k : List Char → Bool) : List Char → Bool
  | [] => false
  | c :: rest => isAtomCh c && (k rest || matchAtomPlus k rest)

/-- The e-mail well-formedness regex `^[^\s@]+@[^\s@]+\.[^\s@]+$` used by
`isValidEmail` in the controller and by the route-level validator. -/
def isValidEmail (s : String) : Bool :=
  matchAtomPlus (fun r1 =>
    match r1 with
    | '@' :: r2 =>
        matchAtomPlus (fun r3 =>
          match r3 with
          | '.' :: r4 => !r4.isEmpty && r4.all isAtomCh
          | _ => false) r2
    | _ => false) s.data

/-! ## The account data model (src/models/User.js) -/

/-- An embedded pending-code sub-document (`emailVerificationSchema` /
`passwordResetSchema`): a one-way digest of the code and its expiry time. -/
structure PendingCode where
  codeHash : String
  expiresAt : Nat
deriving Repr, DecidableEq

/-- The embedded `profile` sub-document. -/
structure Profile where
  firstName : Option String
  lastName : Option String
  avatar : Option String
deriving Repr, DecidableEq

/-- The persisted user document (`userSchema`). -/
structure User where
  id : Nat
  email : String
  passwordHash : String
  name : Option String
  emailVerified : Bool
  emailVerification : Option PendingCode
  passwordReset : Option PendingCode
  profile : Option Profile
  lastLogin : Option Nat
  loginAttempts : Nat
  accountLocked : Bool
  lockUntil : Option Nat
  isActive : Bool
  createdAt : Nat
  updatedAt : Nat
deriving Repr, DecidableEq

/-! ## The credential store -/

/-- Lookup `User.findOne` by email: first document with the given email. -/
def findOne : List User → String → Option User
  | [], _ => none
  | u :: rest, e => if u.email == e then some u else findOne rest e

/-- Lookup `User.findById`: first document with the given id. -/
def findById : List User → Nat → Option User
  | [], _ => none
  | u :: rest, i => if u.id == i then some u else findById rest i

/-- Persist a mutated document: replace by id. -/
def saveUser : List User → User → List User
  | [], _ => []
  | v :: rest, u => (if v.id == u.id then u else v) :: saveUser rest u

/-! ## Model instance methods and hooks (src/models/User.js) -/

/-- Does the document carry an email-verification code that is already
expired (`this.emailVerification?.expiresAt && expiresAt < new Date()`)? -/
def hasExpiredEV (u : User) (now : Nat) : Bool :=
  match u.emailVerification with
  | some pc => decide (pc.expiresAt < now)
  | none => false

/-- Does the document carry an expired password-reset code? -/
def hasExpiredPR (u : User) (now : Nat) : Bool :=
  match u.passwordReset with
  | some pc => decide (pc.expiresAt < now)
  | none => false

/-- The pre-save hook: touch `updatedAt` and drop expired pending
codes. It runs on every `save()` below. -/
def preSave (now : Nat) (u : User) : User :=
  let u1 := { u with updatedAt := now }
  let u2 := if hasExpiredEV u1 now then { u1 with emailVerification := none } else u1
  if hasExpiredPR u2 now then { u2 with passwordReset := none } else u2

/-- The `isLocked` virtual:
`!!(this.accountLocked && this.lockUntil && this.lockUntil > Date.now())`. -/
def isLockedVirtual (u : User) (now : Nat) : Bool :=
  u.accountLocked &&
    (match u.lockUntil with
     | some t => decide (now < t)
     | none => false)

/-- The `isAccountLocked()` instance method; same body as the virtual. -/
def isAccountLocked (u : User) (now : Nat) : Bool :=
  u.accountLocked &&
    (match u.lockUntil with
     | some t => decide (now < t)
     | none => false)

/-- Method `incrementLoginAttempts`: bump the counter and lock for 30 minutes at
the threshold of 5; the final `save()` runs the pre-save hook. -/
def incrementLoginAttempts (now : Nat) (u : User) : User :=
  let u1 := { u with loginAttempts := u.loginAttempts + 1 }
  let u2 :=
    if 5 ≤ u1.loginAttempts then
      { u1 with accountLocked := true, lockUntil := some (now + 30 * 60 * 1000) }
    else u1
  preSave now u2

/-- Method `resetLoginAttempts`: clear the counter and the lock, stamp the login
time, and save. -/
def resetLoginAttempts (now : Nat) (u : User) : User :=
  preSave now
    { u with loginAttempts := 0, accountLocked := false, lockUntil := none,
             lastLogin := some now }

/-! ## JSON-ish values for outward projections -/

/-- The values appearing in serialized responses. -/
inductive JVal where
  | s : String → JVal
  | n : Nat → JVal
  | b : Bool → JVal
  | null : JVal
  | obj : List (String × JVal) → JVal
deriving Repr

/-- An optional string serialized as a value or JSON null/undefined. -/
def jOptStr : Option String → JVal
  | some s => .s s
  | none => .null

/-- An optional timestamp serialized as a value or JSON null/undefined. -/
def jOptNat : Option Nat → JVal
  | some n => .n n
  | none => .null

/-- The serialized `profile` sub-document. -/
def profileJVal : Option Profile → JVal
  | some pr => .obj [("firstName", jOptStr pr.firstName),
                     ("lastName", jOptStr pr.lastName),
                     ("avatar", jOptStr pr.avatar)]
  | none => .null

/-- A serialized pending-code sub-document. -/
def pendingJVal : Option PendingCode → JVal
  | some pc => .obj [("codeHash", .s pc.codeHash), ("expiresAt", .n pc.expiresAt)]
  | none => .null

/-- Look a key up in a serialized object. -/
def lookupKey (l : List (String × JVal)) (k : String) : Option JVal :=
  match l with
  | [] => none
  | kv :: rest => if kv.1 == k then some kv.2 else lookupKey rest k

/-- Truthiness of an optional string (`profile?.firstName && ...`). -/
def optTruthy : Option String → Bool
  | some s => !(s == "")
  | none => false

/-- The `fullName` virtual: first and last name when both are truthy,
otherwise `this.name || ''`. -/
def fullName (u : User) : String :=
  match u.profile with
  | some pr =>
      if optTruthy pr.firstName && optTruthy pr.lastName then
        pr.firstName.getD "" ++ " " ++ pr.lastName.getD ""
      else u.name.getD ""
  | none => u.name.getD ""

/-- Method `toSafeObject`: the explicit public projection of a user. -/
def toSafeObject (u : User) : List (String × JVal) :=
  [("id", .n u.id), ("email", .s u.email), ("name", jOptStr u.name),
   ("fullName", .s (fullName u)), ("emailVerified", .b u.emailVerified),
   ("profile", profileJVal u.profile), ("lastLogin", jOptNat u.lastLogin),
   ("isActive", .b u.isActive), ("createdAt", .n u.createdAt),
   ("updatedAt", .n u.updatedAt)]

/-- The raw mongoose serialization of a document with virtuals attached
(`toJSON` is configured with `virtuals: true`, which adds the `id`,
`fullName` and `isLocked` virtuals to `ret` before the transform runs). -/
def userToObjectWithVirtuals (u : User) (now : Nat) : List (String × JVal) :=
  [("_id", .n u.id), ("email", .s u.email), ("passwordHash", .s u.passwordHash),
   ("name", jOptStr u.name), ("emailVerified", .b u.emailVerified),
   ("emailVerification", pendingJVal u.emailVerification),
   ("passwordReset", pendingJVal u.passwordReset),
   ("profile", profileJVal u.profile), ("lastLogin", jOptNat u.lastLogin),
   ("loginAttempts", .n u.loginAttempts), ("accountLocked", .b u.accountLocked),
   ("lockUntil", jOptNat u.lockUntil), ("isActive", .b u.isActive),
   ("createdAt", .n u.createdAt), ("updatedAt", .n u.updatedAt),
   ("id", .n u.id), ("fullName", .s (fullName u)),
   ("isLocked", .b (isLockedVirtual u now))]

/-- Deletion `delete ret.key` of the `toJSON` transform. -/
def deleteKey (l : List (String × JVal)) (k : String) : List (String × JVal) :=
  l.filter (fun kv => kv.1 != k)

/-- The configured `toJSON` serialization: virtuals attached, then the
transform deletes `passwordHash`, `emailVerification`, `passwordReset`,
`loginAttempts`, `accountLocked` and `lockUntil`. -/
def userToJSON (u : User) (now : Nat) : List (String × JVal) :=
  deleteKey (deleteKey (deleteKey (deleteKey (deleteKey (deleteKey
    (userToObjectWithVirtuals u now)
    "passwordHash") "emailVerification") "passwordReset")
    "loginAttempts") "accountLocked") "lockUntil"

/-! ## Password policy (authController.validatePassword) -/

/-- Test of the uppercase regex against the password. -/
def hasUpperCase (p : String) : Bool :=
  p.data.any (fun c => decide ('A' ≤ c ∧ c ≤ 'Z'))

/-- Test of the lowercase regex against the password. -/
def hasLowerCase (p : String) : Bool :=
  p.data.any (fun c => decide ('a' ≤ c ∧ c ≤ 'z'))

/-- Test of the digit regex against the password. -/
def hasNumbers (p : String) : Bool :=
  p.data.any (fun c => decide ('0' ≤ c ∧ c ≤ '9'))

/-- Membership in the special-character class of the policy regex. -/
def isSpecialCh (c : Char) : Bool :=
  c == '!' || c == '@' || c == '#' || c == '$' || c == '%' || c == '^' ||
  c == '&' || c == '*' || c == '(' || c == ')' || c == ',' || c == '.' ||
  c == '?' || c == Char.ofNat 34 || c == ':' || c == Char.ofNat 123 ||
  c == Char.ofNat 125 || c == '|' || c == '<' || c == '>'

/-- The special-character test of the policy regex. -/
def hasSpecialChar (p : String) : Bool :=
  p.data.any isSpecialCh

/-- The result record of `validatePassword`. -/
structure PasswordValidation where
  isValid : Bool
  message : Option String
deriving Repr, DecidableEq

/-- Policy `validatePassword`: at least 8 characters and one character of each of
the four classes; each rejection carries one human-readable message. -/
def validatePassword (password : String) : PasswordValidation :=
  if password == "" || decide (password.length < 8) then
    ⟨false, some "Password must be at least 8 characters long"⟩
  else if !hasUpperCase password || !hasLowerCase password ||
          !hasNumbers password || !hasSpecialChar password then
    ⟨false, some "Password must contain at least one uppercase letter, one lowercase letter, one number, and one special character"⟩
  else ⟨true, none⟩

/-! ## Bearer tokens (jwt.sign in signin, verifyToken in middleware/auth) -/

/-- Configured token lifetime: `JWT_EXPIRES_IN` defaults to `7d`. -/
def jwtExpiresInSec : Nat := 7 * 24 * 60 * 60

/-- A signed stateless token: subject id, email, issued-at and expiry in
seconds, and the signing secret (standing for the HMAC signature). -/
structure Token where
  id : Nat
  email : String
  iat : Nat
  exp : Nat
  secret : String
deriving Repr, DecidableEq

/-- Minting `jwt.sign` over the id and email claims with the configured expiry. -/
def jwtSign (id : Nat) (email : String) (secret : String) (nowSec : Nat) : Token :=
  { id := id, email := email, iat := nowSec, exp := nowSec + jwtExpiresInSec,
    secret := secret }

/-- Outcome of `verifyToken`: the decoded payload, or one of the two
`AppError(…, 401)` messages the middleware raises. -/
inductive TokenResult where
  | ok (id : Nat) (email : String) (exp : Nat)
  | expired (message : String)
  | invalid (message : String)
deriving Repr, DecidableEq

/-- Validation `verifyToken`: `jwt.verify` checks the signature first
(`JsonWebTokenError` on mismatch), then rejects once the clock reaches
`exp` (`TokenExpiredError`); the middleware maps both to 401 messages. -/
def verifyTokenM (secret : String) (nowSec : Nat) (t : Token) : TokenResult :=
  if t.secret != secret then
    .invalid "Invalid authentication token. Please sign in again."
  else if t.exp ≤ nowSec then
    .expired "Your session has expired. Please sign in again."
  else .ok t.id t.email t.exp

/-! ## Controller responses -/

/-- An HTTP response of the auth controller: status plus JSON body. -/
structure Resp where
  status : Nat
  body : List (String × JVal)
deriving Repr

/-- A response carrying a message body. -/
def respMsg (status : Nat) (m : String) : Resp :=
  ⟨status, [("message", .s m)]⟩

/-- A response carrying an error body. -/
def respErr (status : Nat) (e : String) : Resp :=
  ⟨status, [("error", .s e)]⟩

/-- The `user` object of the signin success body:
`{id, email, name, emailVerified}`. -/
def signinUserView (u : User) : List (String × JVal) :=
  [("id", .n u.id), ("email", .s u.email), ("name", jOptStr u.name),
   ("emailVerified", .b u.emailVerified)]

/-- Outcome of `exports.signin`. -/
inductive SigninResult where
  | err (status : Nat) (error : String)
  | ok (message : String) (token : Token) (user : List (String × JVal))
deriving Repr

/-- Controller `exports.signin`: input checks, first email match, bcrypt comparison
(abstract parameter `compare`), verification gate, token minting, and the
`lastLogin` update.  The source consults neither `isActive` nor the lock
fields and never calls `incrementLoginAttempts`/`resetLoginAttempts`. -/
def signinStep (compare : String → String → Bool) (secret : String)
    (db : List User) (nowMs : Nat) (email password : String) :
    SigninResult × List User :=
  if email == "" || password == "" then
    (.err 400 "Email and password are required", db)
  else if !isValidEmail email then
    (.err 400 "Please provide a valid email address", db)
  else
    match findOne db (normalizeEmail email) with
    | none => (.err 401 "Invalid email or password", db)
    | some user =>
      if !compare password user.passwordHash then
        (.err 401 "Invalid email or password", db)
      else if !user.emailVerified then
        (.err 403 "Please verify your email before signing in", db)
      else
        let token := jwtSign user.id user.email secret (nowMs / 1000)
        let user1 := preSave nowMs { user with lastLogin := some nowMs }
        (.ok "Signed in successfully" token (signinUserView user1),
         saveUser db user1)

/-- Controller `exports.verifyEmail`: input checks, lookup, already-verified and
missing/expired/mismatching-code gates; on success set `emailVerified`,
clear the pending code and save. -/
def verifyEmailStep (hashCode : String → String) (db : List User) (now : Nat)
    (email code : String) : Resp × List User :=
  if email == "" || code == "" then
    (respErr 400 "Email and verification code are required", db)
  else if !isValidEmail email then
    (respErr 400 "Please provide a valid email address", db)
  else
    match findOne db (normalizeEmail email) with
    | none => (respErr 400 "Invalid email or verification code", db)
    | some user =>
      if user.emailVerified then
        (respErr 400 "Email is already verified", db)
      else
        match user.emailVerification with
        | none => (respErr 400 "No verification code found. Please request a new one.", db)
        | some pc =>
          if pc.codeHash == "" then
            (respErr 400 "No verification code found. Please request a new one.", db)
          else if pc.expiresAt < now then
            (respErr 400 "Verification code has expired. Please request a new one.", db)
          else if hashCode (jsTrim code) != pc.codeHash then
            (respErr 400 "Invalid verification code", db)
          else
            let user1 := preSave now { user with emailVerified := true,
                                                 emailVerification := none }
            (respMsg 200 "Email verified successfully! You can now sign in.",
             saveUser db user1)

/-- Controller `exports.resetPassword`: input checks, password policy, lookup,
missing/expired/mismatching-code gates; on success replace the password
hash (abstract `bhash`), clear the pending reset code and save. -/
def resetPasswordStep (hashCode : String → String) (bhash : String → String)
    (db : List User) (now : Nat) (email code newPassword : String) :
    Resp × List User :=
  if email == "" || code == "" || newPassword == "" then
    (respErr 400 "Email, reset code, and new password are required", db)
  else if !isValidEmail email then
    (respErr 400 "Please provide a valid email address", db)
  else if !(validatePassword newPassword).isValid then
    (respErr 400 ((validatePassword newPassword).message.getD ""), db)
  else
    match findOne db (normalizeEmail email) with
    | none => (respErr 400 "Invalid reset request", db)
    | some user =>
      match user.passwordReset with
      | none => (respErr 400 "Invalid reset request", db)
      | some pc =>
        if pc.codeHash == "" then
          (respErr 400 "Invalid reset request", db)
        else if pc.expiresAt < now then
          (respErr 400 "Reset code has expired. Please request a new one.", db)
        else if hashCode (jsTrim code) != pc.codeHash then
          (respErr 400 "Invalid reset code", db)
        else
          let user1 := preSave now { user with passwordHash := bhash newPassword,
                                               passwordReset := none }
          (respMsg 200 "Password has been reset successfully. Please sign in with your new password.",
           saveUser db user1)

/-- Configured code lifetime: `EMAIL_CODE_EXPIRES_MIN` defaults to 15. -/
def codeExpiresMin : Nat := 15

/-- The anti-enumeration success message of `exports.forgotPassword`. -/
def forgotSuccessMessage : String :=
  "If an account with this email exists, a password reset code has been sent."

/-- Controller `exports.forgotPassword`: for an unknown account, reply with the generic
success message without touching the store; for a known account, store the
fresh hashed code (`genCode` abstracts the random numeric code) and then
attempt delivery.  A delivery failure (`mailOk = false`) propagates to the
catch-all, which replies 500 — after the code has already been saved. -/
def forgotPasswordStep (hashCode : String → String) (genCode : String)
    (mailOk : Bool) (db : List User) (now : Nat) (email : String) :
    Resp × List User :=
  if email == "" then
    (respErr 400 "Email is required", db)
  else if !isValidEmail email then
    (respErr 400 "Please provide a valid email address", db)
  else
    match findOne db (normalizeEmail email) with
    | none => (respMsg 200 forgotSuccessMessage, db)
    | some user =>
      let newReset := PendingCode.mk (hashCode genCode) (now + codeExpiresMin * 60000)
      let user1 := preSave now { user with passwordReset := some newReset }
      let db1 := saveUser db user1
      if mailOk then (respMsg 200 forgotSuccessMessage, db1)
      else (respErr 500 "Failed to process password reset request. Please try again.", db1)

/-! ## Protected routes (src/routes/protected.js) -/

/-- Outcome of a protected-route handler: a raised `AppError` (which the
error middleware serializes with its status code) or a success body. -/
inductive MeResult where
  | appError (status : Nat) (message : String)
  | ok (user : List (String × JVal))
deriving Repr

/-- Handler of `GET /api/me` after authentication: load by id, refuse deactivated
accounts with a 403 `AppError`, else answer with `toSafeObject()`. -/
def getMe (db : List User) (uid : Nat) : MeResult :=
  match findById db uid with
  | none => .appError 404 "User not found"
  | some user =>
    if !user.isActive then .appError 403 "Account has been deactivated"
    else .ok (toSafeObject user)

/-- The `profile` object of the request body for `PUT /api/me`. -/
structure ProfileInput where
  firstName : Option String
  lastName : Option String
  avatar : Option String
deriving Repr, DecidableEq

/-- The `submitted?.trim() || previous` idiom of the profile merge: an
absent, empty or whitespace-only submission keeps the previous value. -/
def trimOrFallback (submitted : Option String) (previous : Option String) :
    Option String :=
  match submitted with
  | some s => if jsTrim s == "" then previous else some (jsTrim s)
  | none => previous

/-- The stored `profile.firstName` of a user, if any. -/
def profFirst (u : User) : Option String := u.profile.bind Profile.firstName

/-- The stored `profile.lastName` of a user, if any. -/
def profLast (u : User) : Option String := u.profile.bind Profile.lastName

/-- The stored `profile.avatar` of a user, if any. -/
def profAvatar (u : User) : Option String := u.profile.bind Profile.avatar

/-- Handler of `PUT /api/me` after authentication.  `name` is `none` when the field is
absent from the body (`name !== undefined`), `some none` when it is null.
A present `profile` object is merged field by field with the
`?.trim() || previous` fallback; the result is saved and echoed. -/
def updateMeStep (db : List User) (now uid : Nat)
    (name : Option (Option String)) (profile : Option ProfileInput) :
    MeResult × List User :=
  match findById db uid with
  | none => (.appError 404 "User not found", db)
  | some user =>
    if !user.isActive then (.appError 403 "Account has been deactivated", db)
    else
      let user1 :=
        match name with
        | none => user
        | some n =>
          { user with name :=
              match n with
              | none => none
              | some s => if jsTrim s == "" then none else some (jsTrim s) }
      let user2 :=
        match profile with
        | none => user1
        | some p =>
          let merged := Profile.mk (trimOrFallback p.firstName (profFirst user))
            (trimOrFallback p.lastName (profLast user))
            (trimOrFallback p.avatar (profAvatar user))
          { user1 with profile := some merged }
      let user3 := preSave now user2
      (.ok (toSafeObject user3), saveUser db user3)

/-- Route `GET /api/me` including the authentication middleware: verify the
token, check the payload claims, then run the handler. -/
def getMeWithToken (secret : String) (nowSec : Nat) (db : List User)
    (tok : Token) : MeResult :=
  match verifyTokenM secret nowSec tok with
  | .expired m => .appError 401 m
  | .invalid m => .appError 401 m
  | .ok id email _ =>
    if id == 0 || email == "" then
      .appError 401 "Invalid token payload. Please sign in again."
    else getMe db id

/-- Route `PUT /api/me` including the authentication middleware. -/
def updateMeWithToken (secret : String) (nowSec : Nat) (db : List User)
    (tok : Token) (now : Nat) (name : Option (Option String))
    (profile : Option ProfileInput) : MeResult × List User :=
  match verifyTokenM secret nowSec tok with
  | .expired m => (.appError 401 m, db)
  | .invalid m => (.appError 401 m, db)
  | .ok id email _ =>
    if id == 0 || email == "" then
      (.appError 401 "Invalid token payload. Please sign in again.", db)
    else updateMeStep db now id name profile

/-! ## Store and hook lemmas -/

theorem findOne_email (db : List User) (e : String) (u : User)
    (h : findOne db e = some u) : (u.email == e) = true := by
  induction db with
  | nil => simp [findOne] at h
  | cons v rest ih =>
    simp only [findOne] at h
    split at h
    · cases h; assumption
    · exact ih h

theorem findById_id (db : List User) (i : Nat) (u : User)
    (h : findById db i = some u) : (u.id == i) = true := by
  induction db with
  | nil => simp [findById] at h
  | cons v rest ih =>
    simp only [findById] at h
    split at h
    · cases h; assumption
    · exact ih h

theorem findOne_saveUser (db : List User) (e : String) (u u' : User)
    (hid : u'.id = u.id) (hem : u'.email = u.email) :
    findOne db e = some u → findOne (saveUser db u') e = some u' := by
  induction db with
  | nil => intro hf; simp [findOne] at hf
  | cons v rest ih =>
    intro hf
    simp only [findOne] at hf
    simp only [saveUser, findOne]
    split at hf
    · rename_i hve
      obtain rfl : v = u := Option.some.inj hf
      have h1 : (v.id == u'.id) = true := by simp [hid]
      rw [if_pos h1]
      have h2 : (u'.email == e) = true := by
        rw [hem]; exact hve
      rw [if_pos h2]
    · rename_i hve
      by_cases h1 : (v.id == u'.id) = true
      · rw [if_pos h1]
        have h2 : (u'.email == e) = true := by
          rw [hem]; exact findOne_email rest e u hf
        rw [if_pos h2]
      · rw [if_neg h1, if_neg hve]
        exact ih hf

theorem findById_saveUser (db : List User) (i : Nat) (u u' : User)
    (hid : u'.id = u.id) :
    findById db i = some u → findById (saveUser db u') i = some u' := by
  induction db with
  | nil => intro hf; simp [findById] at hf
  | cons v rest ih =>
    intro hf
    simp only [findById] at hf
    simp only [saveUser, findById]
    split at hf
    · rename_i hvi
      obtain rfl : v = u := Option.some.inj hf
      have h1 : (v.id == u'.id) = true := by simp [hid]
      rw [if_pos h1]
      have h2 : (u'.id == i) = true := by
        rw [hid]; exact hvi
      rw [if_pos h2]
    · rename_i hvi
      by_cases h1 : (v.id == u'.id) = true
      · rw [if_pos h1]
        have h2 : (u'.id == i) = true := by
          rw [hid]; exact findById_id rest i u hf
        rw [if_pos h2]
      · rw [if_neg h1, if_neg hvi]
        exact ih hf

theorem preSave_id (now : Nat) (u : User) : (preSave now u).id = u.id := by
  simp only [preSave]; split <;> split <;> rfl

theorem preSave_email (now : Nat) (u : User) : (preSave now u).email = u.email := by
  simp only [preSave]; split <;> split <;> rfl

theorem preSave_emailVerified (now : Nat) (u : User) :
    (preSave now u).emailVerified = u.emailVerified := by
  simp only [preSave]; split <;> split <;> rfl

theorem preSave_isActive (now : Nat) (u : User) :
    (preSave now u).isActive = u.isActive := by
  simp only [preSave]; split <;> split <;> rfl

theorem preSave_profile (now : Nat) (u : User) :
    (preSave now u).profile = u.profile := by
  simp only [preSave]; split <;> split <;> rfl

theorem preSave_passwordReset_none (now : Nat) (u : User)
    (h : u.passwordReset = none) : (preSave now u).passwordReset = none := by
  simp only [preSave]
  split <;> simp [hasExpiredPR, h]

/-! ## Concrete documents used by closed statements -/

/-- A concrete verified, active account (the password digest is the
identity image of the password, matching the abstract `compare`
instantiated with string equality in the closed statements). -/
def baseUser : User :=
  { id := 1, email := "a@x.com", passwordHash := "Abcd123!",
    name := none, emailVerified := true, emailVerification := none,
    passwordReset := none, profile := none, lastLogin := none,
    loginAttempts := 0, accountLocked := false, lockUntil := none,
    isActive := true, createdAt := 0, updatedAt := 0 }

/-! ## Claim C8 — the lock predicate -/

/-- C8 is refuted on the code: `isLocked` also demands the separate
`accountLocked` flag, so an account whose `lockUntil` is set and strictly
in the future is reported unlocked while that flag is false, and flipping
that flag alone flips the result. -/
theorem isLocked_needs_accountLocked_flag :
    isLockedVirtual { baseUser with accountLocked := false, lockUntil := some 100 } 0 = false
    ∧ ({ baseUser with accountLocked := false, lockUntil := some 100 } : User).lockUntil = some 100
    ∧ (0 : Nat) < 100
    ∧ isLockedVirtual { baseUser with accountLocked := true, lockUntil := some 100 } 0 = true := by
  decide

/-- C8 (amended): `isLocked` is true iff the `accountLocked` flag is set
AND `lockUntil` is set AND strictly in the future; once `lockUntil` passes
the lock lapses (the read mutates nothing), and the `isAccountLocked()`
method agrees with the virtual. -/
theorem isLocked_characterization (u : User) (now : Nat) :
    (isLockedVirtual u now = true ↔
      (u.accountLocked = true ∧ ∃ t, u.lockUntil = some t ∧ now < t))
    ∧ (∀ t, u.lockUntil = some t → t ≤ now → isLockedVirtual u now = false)
    ∧ isAccountLocked u now = isLockedVirtual u now := by
  refine ⟨?_, ?_, rfl⟩
  · unfold isLockedVirtual
    cases h : u.lockUntil with
    | none => simp [h]
    | some t => simp [h]
  · intro t ht hle
    unfold isLockedVirtual
    rw [ht]
    simp [Nat.not_lt.mpr hle]

/-- Closed instance of `isLocked_characterization`: a lapsed lock reads as
unlocked. -/
theorem isLocked_characterization_witness :
    isLockedVirtual { baseUser with accountLocked := true, lockUntil := some 100 } 200 = false :=
  (isLocked_characterization { baseUser with accountLocked := true, lockUntil := some 100 } 200).2.1
    100 rfl (by decide)

/-! ## Claim C6 — the password acceptance policy -/

theorem hasUpperCase_iff (p : String) :
    hasUpperCase p = true ↔ ∃ c ∈ p.data, 'A' ≤ c ∧ c ≤ 'Z' := by
  simp [hasUpperCase, List.any_eq_true]

theorem hasLowerCase_iff (p : String) :
    hasLowerCase p = true ↔ ∃ c ∈ p.data, 'a' ≤ c ∧ c ≤ 'z' := by
  simp [hasLowerCase, List.any_eq_true]

theorem hasNumbers_iff (p : String) :
    hasNumbers p = true ↔ ∃ c ∈ p.data, '0' ≤ c ∧ c ≤ '9' := by
  simp [hasNumbers, List.any_eq_true]

theorem hasSpecialChar_iff (p : String) :
    hasSpecialChar p = true ↔ ∃ c ∈ p.data, isSpecialCh c = true := by
  simp [hasSpecialChar, List.any_eq_true]

theorem policy_length_gate (p : String) :
    (p == "" || decide (p.length < 8)) = false ↔ 8 ≤ p.length := by
  rw [Bool.or_eq_false_iff]
  simp only [beq_eq_false_iff_ne, ne_eq, decide_eq_false_iff_not, Nat.not_lt]
  constructor
  · rintro ⟨-, h⟩; exact h
  · intro h
    refine ⟨fun hp => ?_, h⟩
    subst hp
    have h0 : ("" : String).length = 0 := rfl
    omega

/-- C6: the policy of `validatePassword` (applied verbatim by `signup` and
`resetPassword`) accepts exactly the passwords of length at least 8 that
contain an uppercase letter, a lowercase letter, a digit and a character
of the special class of the policy regex; every rejection carries a single
human-readable message. -/
theorem password_policy_characterization (p : String) :
    ((validatePassword p).isValid = true ↔
      (8 ≤ p.length ∧ (∃ c ∈ p.data, 'A' ≤ c ∧ c ≤ 'Z') ∧
       (∃ c ∈ p.data, 'a' ≤ c ∧ c ≤ 'z') ∧
       (∃ c ∈ p.data, '0' ≤ c ∧ c ≤ '9') ∧
       (∃ c ∈ p.data, isSpecialCh c = true)))
    ∧ ((validatePassword p).isValid = false →
        ∃ m, (validatePassword p).message = some m) := by
  refine ⟨⟨fun hv => ?_, fun hr => ?_⟩, fun hinv => ?_⟩
  · by_cases hA : (p == "" || decide (p.length < 8)) = true
    · simp only [validatePassword, if_pos hA] at hv
      exact absurd hv (by simp)
    · have hA' : (p == "" || decide (p.length < 8)) = false := eq_false_of_ne_true hA
      by_cases hB : (!hasUpperCase p || !hasLowerCase p ||
          !hasNumbers p || !hasSpecialChar p) = true
      · simp only [validatePassword, if_neg hA, if_pos hB] at hv
        exact absurd hv (by simp)
      · have hB' := eq_false_of_ne_true hB
        simp only [Bool.or_eq_false_iff, Bool.not_eq_false'] at hB'
        obtain ⟨⟨⟨hU, hL⟩, hN⟩, hS⟩ := hB'
        exact ⟨(policy_length_gate p).mp hA', (hasUpperCase_iff p).mp hU,
          (hasLowerCase_iff p).mp hL, (hasNumbers_iff p).mp hN,
          (hasSpecialChar_iff p).mp hS⟩
  · obtain ⟨hlen, hU, hL, hN, hS⟩ := hr
    have hA' : (p == "" || decide (p.length < 8)) = false :=
      (policy_length_gate p).mpr hlen
    have hU' := (hasUpperCase_iff p).mpr hU
    have hL' := (hasLowerCase_iff p).mpr hL
    have hN' := (hasNumbers_iff p).mpr hN
    have hS' := (hasSpecialChar_iff p).mpr hS
    simp [validatePassword, hA', hU', hL', hN', hS']
  · by_cases hA : (p == "" || decide (p.length < 8)) = true
    · exact ⟨"Password must be at least 8 characters long",
        by simp only [validatePassword, if_pos hA]⟩
    · by_cases hB : (!hasUpperCase p || !hasLowerCase p ||
          !hasNumbers p || !hasSpecialChar p) = true
      · exact ⟨"Password must contain at least one uppercase letter, one lowercase letter, one number, and one special character",
          by simp only [validatePassword, if_neg hA, if_pos hB]⟩
      · exfalso
        simp only [validatePassword, if_neg hA, if_neg hB] at hinv
        exact absurd hinv (by simp)

/-- Closed instance of `password_policy_characterization`: a compliant
password is accepted; a password missing a digit is rejected with one
message. -/
theorem password_policy_witness :
    (validatePassword "Abcd123!").isValid = true
    ∧ ∃ m, (validatePassword "Abcdefg!").message = some m :=
  ⟨(password_policy_characterization "Abcd123!").1.mpr (by decide),
   (password_policy_characterization "Abcdefg!").2 (by decide)⟩

/-! ## Claim C7 — token round-trip -/

/-- C7: a token minted by `jwt.sign` for `(id, email)` decodes to the same
`id`/`email` at any instant strictly before `iat + expiresIn`, and decoding
once the window has elapsed fails with the Expired reason. -/
theorem token_roundtrip (id : Nat) (email secret : String) (iatSec t : Nat) :
    (t < iatSec + jwtExpiresInSec →
      verifyTokenM secret t (jwtSign id email secret iatSec) =
        .ok id email (iatSec + jwtExpiresInSec))
    ∧ (iatSec + jwtExpiresInSec ≤ t →
      verifyTokenM secret t (jwtSign id email secret iatSec) =
        .expired "Your session has expired. Please sign in again.") := by
  constructor
  · intro h
    have hn : ¬(iatSec + jwtExpiresInSec ≤ t) := by omega
    simp [verifyTokenM, jwtSign, hn]
  · intro h
    simp [verifyTokenM, jwtSign, h]

/-- Closed instance of `token_roundtrip` at issuance time 0: decoding at 0
succeeds with the same claims, decoding once the window has elapsed is
Expired. -/
theorem token_roundtrip_witness :
    verifyTokenM "s" 0 (jwtSign 7 "a@x.com" "s" 0) =
      .ok 7 "a@x.com" (0 + jwtExpiresInSec)
    ∧ verifyTokenM "s" 700000 (jwtSign 7 "a@x.com" "s" 0) =
      .expired "Your session has expired. Please sign in again." :=
  ⟨(token_roundtrip 7 "a@x.com" "s" 0 0).1 (by decide),
   (token_roundtrip 7 "a@x.com" "s" 0 700000).2 (by decide)⟩

/-! ## Claim C9 — outward projections -/

/-- C9 is refuted on the code for the `toJSON` projection: the serializer
is configured with `virtuals: true`, so the derived lock-state boolean
`isLocked` survives the transform (which only deletes the raw fields) and
is exposed — here `true` for a concretely locked account. -/
theorem toJSON_exposes_lock_state :
    lookupKey (userToJSON { baseUser with accountLocked := true, lockUntil := some 2000 } 1000)
      "isLocked" = some (.b true) := rfl

/-- C9 (amended): `toSafeObject`, the signin `user` body and the `toJSON`
transform expose neither the password hash, nor the pending-code
sub-records, nor the failed-login counter, nor the raw lock fields; the
`toJSON` serialization does however expose the derived `isLocked` virtual
(lock state), because virtuals are enabled. -/
theorem public_views_hide_credentials (u : User) (now : Nat) :
    lookupKey (toSafeObject u) "passwordHash" = none
    ∧ lookupKey (toSafeObject u) "emailVerification" = none
    ∧ lookupKey (toSafeObject u) "passwordReset" = none
    ∧ lookupKey (toSafeObject u) "loginAttempts" = none
    ∧ lookupKey (toSafeObject u) "accountLocked" = none
    ∧ lookupKey (toSafeObject u) "lockUntil" = none
    ∧ lookupKey (signinUserView u) "passwordHash" = none
    ∧ lookupKey (signinUserView u) "emailVerification" = none
    ∧ lookupKey (signinUserView u) "passwordReset" = none
    ∧ lookupKey (signinUserView u) "loginAttempts" = none
    ∧ lookupKey (signinUserView u) "accountLocked" = none
    ∧ lookupKey (signinUserView u) "lockUntil" = none
    ∧ lookupKey (userToJSON u now) "passwordHash" = none
    ∧ lookupKey (userToJSON u now) "emailVerification" = none
    ∧ lookupKey (userToJSON u now) "passwordReset" = none
    ∧ lookupKey (userToJSON u now) "loginAttempts" = none
    ∧ lookupKey (userToJSON u now) "accountLocked" = none
    ∧ lookupKey (userToJSON u now) "lockUntil" = none
    ∧ lookupKey (userToJSON u now) "isLocked" = some (.b (isLockedVirtual u now)) :=
  ⟨rfl, rfl, rfl, rfl, rfl, rfl, rfl, rfl, rfl, rfl, rfl, rfl, rfl, rfl,
   rfl, rfl, rfl, rfl, rfl⟩

/-! ## Claim C5 — verification acceptance condition -/

/-- C5: for an unverified account holding a pending verification code,
`verifyEmail` succeeds exactly when the clock has not passed `expiresAt`
(`now ≤ expiresAt`, so submission exactly at the boundary succeeds) and
the digest of the trimmed submitted code equals the stored hash. -/
theorem verify_email_success_iff (h : String → String) (db : List User)
    (now : Nat) (email code : String) (u : User) (pc : PendingCode)
    (he : (email == "") = false) (hc : (code == "") = false)
    (hv : isValidEmail email = true)
    (hfind : findOne db (normalizeEmail email) = some u)
    (hver : u.emailVerified = false)
    (hpc : u.emailVerification = some pc)
    (hch : (pc.codeHash == "") = false) :
    (verifyEmailStep h db now email code).1.status = 200 ↔
      (now ≤ pc.expiresAt ∧ h (jsTrim code) = pc.codeHash) := by
  simp only [verifyEmailStep, he, hc, hv, hfind, hver, hpc, hch]
  by_cases hexp : pc.expiresAt < now
  · rw [if_pos hexp]
    constructor
    · intro hfalse; exact absurd hfalse (by simp [respErr])
    · rintro ⟨h1, -⟩; omega
  · rw [if_neg hexp]
    by_cases hh : h (jsTrim code) = pc.codeHash
    · rw [if_neg (by simp [hh] : ¬((h (jsTrim code) != pc.codeHash) = true))]
      constructor
      · intro _; exact ⟨by omega, hh⟩
      · intro _; rfl
    · rw [if_pos (by simp [hh] : (h (jsTrim code) != pc.codeHash) = true)]
      constructor
      · intro hfalse; exact absurd hfalse (by simp [respErr])
      · rintro ⟨-, h2⟩; exact absurd h2 hh

/-- A concrete unverified account with a pending verification code that
expires at instant 900000. -/
def pendingUser : User :=
  { baseUser with
    emailVerified := false,
    emailVerification := some (PendingCode.mk "246810" 900000) }

/-- Closed instance of `verify_email_success_iff`: a matching code at the
exact expiry instant is accepted; a mismatching one is refused. -/
theorem verify_email_success_iff_witness :
    (verifyEmailStep (fun s => s) [pendingUser] 900000 "a@x.com" "246810").1.status = 200
    ∧ (verifyEmailStep (fun s => s) [pendingUser] 900000 "a@x.com" "999999").1.status ≠ 200 :=
  ⟨(verify_email_success_iff (fun s => s) [pendingUser] 900000 "a@x.com" "246810" pendingUser
      (PendingCode.mk "246810" 900000) (by rfl) (by rfl) (by rfl) (by rfl) (by rfl)
      (by rfl) (by rfl)).mpr ⟨by decide, rfl⟩,
   fun hcontra =>
     absurd ((verify_email_success_iff (fun s => s) [pendingUser] 900000 "a@x.com" "999999"
       pendingUser (PendingCode.mk "246810" 900000) (by rfl) (by rfl) (by rfl) (by rfl)
       (by rfl) (by rfl) (by rfl)).mp hcontra).2 (by decide)⟩

/-! ## Claim C4 — forgot-password uniformity -/

/-- C4 is refuted on the code: a mail-delivery failure for an existing
account surfaces as a 500 error response, while the non-existing-account
run (same submitted email, same clock) answers 200 — so the responses are
not identical, and delivery failure does change the response. -/
theorem forgot_mail_failure_breaks_uniformity :
    (forgotPasswordStep (fun s => s) "123456" false [baseUser] 0 "a@x.com").1.status = 500
    ∧ (forgotPasswordStep (fun s => s) "123456" false [] 0 "a@x.com").1.status = 200
    ∧ (forgotPasswordStep (fun s => s) "123456" true [baseUser] 0 "a@x.com").1.status = 200 :=
  ⟨rfl, rfl, rfl⟩

/-- C4 (amended): when mail delivery succeeds, `forgotPassword` answers
with the identical 200 success body whether or not the account exists;
when delivery fails for an existing account, the response becomes a 500
error (after the reset code has been stored). -/
theorem forgot_uniform_when_mail_ok (h : String → String) (g : String)
    (db : List User) (now : Nat) (email : String)
    (he : (email == "") = false) (hv : isValidEmail email = true) :
    (forgotPasswordStep h g true db now email).1 = respMsg 200 forgotSuccessMessage
    ∧ (∀ u, findOne db (normalizeEmail email) = some u →
        (forgotPasswordStep h g false db now email).1 =
          respErr 500 "Failed to process password reset request. Please try again.") := by
  constructor
  · cases hf : findOne db (normalizeEmail email) with
    | none => simp [forgotPasswordStep, he, hv, hf]
    | some u => simp [forgotPasswordStep, he, hv, hf]
  · intro u hf
    simp [forgotPasswordStep, he, hv, hf]

/-- Closed instance of `forgot_uniform_when_mail_ok`: the 200 body is the
same string for an existing and for an unknown email, and the mail-failure
run for the existing account answers 500. -/
theorem forgot_uniform_witness :
    (forgotPasswordStep (fun s => s) "654321" true [baseUser] 5 "a@x.com").1 =
      respMsg 200 forgotSuccessMessage
    ∧ (forgotPasswordStep (fun s => s) "654321" true [] 5 "a@x.com").1 =
      respMsg 200 forgotSuccessMessage
    ∧ (forgotPasswordStep (fun s => s) "654321" false [baseUser] 5 "a@x.com").1 =
      respErr 500 "Failed to process password reset request. Please try again." :=
  ⟨(forgot_uniform_when_mail_ok (fun s => s) "654321" [baseUser] 5 "a@x.com" rfl rfl).1,
   (forgot_uniform_when_mail_ok (fun s => s) "654321" [] 5 "a@x.com" rfl rfl).1,
   (forgot_uniform_when_mail_ok (fun s => s) "654321" [baseUser] 5 "a@x.com" rfl rfl).2
     baseUser rfl⟩

/-! ## Claim C1 — no lockout in signin -/

/-- C1 is contradicted by the code (`code_bug`): a wrong-password signin
answers the generic 401 and leaves the store untouched — the controller
never calls `incrementLoginAttempts`, so five consecutive wrong-password
attempts leave the account exactly as it was (counter still at its old
value, no `lockedUntil`), and a sixth attempt with the correct password
succeeds with a token instead of failing Locked. -/
theorem signin_never_locks (compare : String → String → Bool) (secret : String)
    (db : List User) (nowMs : Nat) (email wrongpw correctpw : String) (u : User)
    (he : (email == "") = false) (hw : (wrongpw == "") = false)
    (hc : (correctpw == "") = false) (hv : isValidEmail email = true)
    (hfind : findOne db (normalizeEmail email) = some u)
    (hwrong : compare wrongpw u.passwordHash = false)
    (hright : compare correctpw u.passwordHash = true)
    (hver : u.emailVerified = true) :
    signinStep compare secret db nowMs email wrongpw =
      (.err 401 "Invalid email or password", db)
    ∧ (fun d => (signinStep compare secret d nowMs email wrongpw).2)^[5] db = db
    ∧ ∃ tok view, (signinStep compare secret db nowMs email correctpw).1 =
        .ok "Signed in successfully" tok view := by
  have hfail : signinStep compare secret db nowMs email wrongpw =
      (.err 401 "Invalid email or password", db) := by
    simp [signinStep, he, hw, hv, hfind, hwrong]
  refine ⟨hfail, ?_, ?_⟩
  · refine Function.iterate_fixed ?_ 5
    show (signinStep compare secret db nowMs email wrongpw).2 = db
    rw [hfail]
  · have hok : (signinStep compare secret db nowMs email correctpw).1 =
        .ok "Signed in successfully" (jwtSign u.id u.email secret (nowMs / 1000))
          (signinUserView (preSave nowMs { u with lastLogin := some nowMs })) := by
      simp [signinStep, he, hc, hv, hfind, hright, hver]
    exact ⟨_, _, hok⟩

/-- Closed instance of `signin_never_locks`: five wrong-password signins
against a one-account store leave it untouched, and the sixth signin with
the correct password is issued a token. -/
theorem signin_never_locks_witness :
    (fun d => (signinStep (fun p hsh => p == hsh) "sec" d 0 "a@x.com" "Wrong9!z").2)^[5]
      [baseUser] = [baseUser]
    ∧ ∃ tok view, (signinStep (fun p hsh => p == hsh) "sec" [baseUser] 0
        "a@x.com" "Abcd123!").1 = .ok "Signed in successfully" tok view :=
  ⟨(signin_never_locks (fun p hsh => p == hsh) "sec" [baseUser] 0 "a@x.com"
      "Wrong9!z" "Abcd123!" baseUser (by rfl) (by rfl) (by rfl) (by rfl) (by rfl)
      (by rfl) (by rfl) (by rfl)).2.1,
   (signin_never_locks (fun p hsh => p == hsh) "sec" [baseUser] 0 "a@x.com"
      "Wrong9!z" "Abcd123!" baseUser (by rfl) (by rfl) (by rfl) (by rfl) (by rfl)
      (by rfl) (by rfl) (by rfl)).2.2⟩

/-! ## Claim C2 — deactivated accounts -/

/-- A concrete deactivated (but verified) account. -/
def deactivatedUser : User := { baseUser with isActive := false }

/-- C2 is refuted on the code for the signin half: the controller looks the
account up with a plain `findOne` (not the `findByEmail` static that
filters on `isActive`), and never consults `isActive` — so a deactivated
verified account presenting the correct password is signed in and issued a
bearer token. -/
theorem signin_token_for_deactivated :
    (signinStep (fun p hsh => p == hsh) "sec" [deactivatedUser] 0
        "a@x.com" "Abcd123!").1 =
      .ok "Signed in successfully" (Token.mk 1 "a@x.com" 0 604800 "sec")
        [("id", .n 1), ("email", .s "a@x.com"), ("name", JVal.null),
         ("emailVerified", .b true)] := by
  rfl

/-- C2 (amended): with a valid token for a deactivated account, the
authenticated profile routes (`GET /api/me`, `PUT /api/me`) fail 403
Forbidden; `signin`, however, ignores the `active` flag entirely — a
deactivated verified account with the correct password is issued a bearer
token. -/
theorem deactivated_forbidden_on_me_routes (secret : String) (nowSec now : Nat)
    (db : List User) (tok : Token) (u : User)
    (hsec : tok.secret = secret) (hexp : nowSec < tok.exp)
    (hid0 : (tok.id == 0) = false) (hem : (tok.email == "") = false)
    (hfind : findById db tok.id = some u) (hact : u.isActive = false)
    (nameField : Option (Option String)) (profile : Option ProfileInput) :
    getMeWithToken secret nowSec db tok = .appError 403 "Account has been deactivated"
    ∧ (updateMeWithToken secret nowSec db tok now nameField profile).1 =
        .appError 403 "Account has been deactivated"
    ∧ ∀ (compare : String → String → Bool) (nowMs : Nat) (email password : String),
        (email == "") = false → (password == "") = false →
        isValidEmail email = true →
        findOne db (normalizeEmail email) = some u →
        compare password u.passwordHash = true → u.emailVerified = true →
        ∃ tok2 view, (signinStep compare secret db nowMs email password).1 =
          .ok "Signed in successfully" tok2 view := by
  have hnle : ¬(tok.exp ≤ nowSec) := by omega
  have hver : verifyTokenM secret nowSec tok = .ok tok.id tok.email tok.exp := by
    simp [verifyTokenM, hsec, hnle]
  refine ⟨?_, ?_, ?_⟩
  · simp [getMeWithToken, hver, hid0, hem, getMe, hfind, hact]
  · simp [updateMeWithToken, hver, hid0, hem, updateMeStep, hfind, hact]
  · intro compare nowMs email password he hp hvm hfo hcmp hever
    have hok : (signinStep compare secret db nowMs email password).1 =
        .ok "Signed in successfully" (jwtSign u.id u.email secret (nowMs / 1000))
          (signinUserView (preSave nowMs { u with lastLogin := some nowMs })) := by
      simp [signinStep, he, hp, hvm, hfo, hcmp, hever]
    exact ⟨_, _, hok⟩

/-- Closed instance of `deactivated_forbidden_on_me_routes`: a valid token
for the deactivated account is refused 403 on `GET /api/me`, while signin
for the same account still hands out a token. -/
theorem deactivated_forbidden_witness :
    getMeWithToken "sec" 10 [deactivatedUser] (Token.mk 1 "a@x.com" 0 604800 "sec") =
      .appError 403 "Account has been deactivated"
    ∧ ∃ tok2 view, (signinStep (fun p hsh => p == hsh) "sec" [deactivatedUser] 0
        "a@x.com" "Abcd123!").1 = .ok "Signed in successfully" tok2 view :=
  ⟨(deactivated_forbidden_on_me_routes "sec" 10 0 [deactivatedUser]
      (Token.mk 1 "a@x.com" 0 604800 "sec") deactivatedUser (by rfl) (by decide)
      (by rfl) (by rfl) (by rfl) (by rfl) none none).1,
   (deactivated_forbidden_on_me_routes "sec" 10 0 [deactivatedUser]
      (Token.mk 1 "a@x.com" 0 604800 "sec") deactivatedUser (by rfl) (by decide)
      (by rfl) (by rfl) (by rfl) (by rfl) none none).2.2
      (fun p hsh => p == hsh) 0 "a@x.com" "Abcd123!" (by rfl) (by rfl) (by rfl)
      (by rfl) (by rfl) (by rfl)⟩

/-! ## Claim C10 — profile sub-fields cannot be cleared -/

theorem trimOrFallback_of_blank (s : String) (old : Option String)
    (h : jsTrim s = "") : trimOrFallback (some s) old = old := by
  simp [trimOrFallback, h]

theorem trimOrFallback_of_filled (s : String) (old : Option String)
    (h : jsTrim s ≠ "") : trimOrFallback (some s) old = some (jsTrim s) := by
  simp [trimOrFallback, h]

/-- C10: in `PUT /api/me`, a profile sub-field submitted as an empty or
whitespace-only string (or omitted) keeps the previously stored value,
while a submission with non-blank content overwrites it with the trimmed
text — so profile sub-fields can be overwritten but never cleared. -/
theorem updateProfile_never_clears (db : List User) (now uid : Nat)
    (nameField : Option (Option String)) (p : ProfileInput) (u : User)
    (hfind : findById db uid = some u) (hact : u.isActive = true) :
    ∃ u', findById (updateMeStep db now uid nameField (some p)).2 uid = some u'
      ∧ (∀ s, p.firstName = some s → jsTrim s = "" → profFirst u' = profFirst u)
      ∧ (p.firstName = none → profFirst u' = profFirst u)
      ∧ (∀ s, p.firstName = some s → jsTrim s ≠ "" → profFirst u' = some (jsTrim s))
      ∧ (∀ s, p.lastName = some s → jsTrim s = "" → profLast u' = profLast u)
      ∧ (p.lastName = none → profLast u' = profLast u)
      ∧ (∀ s, p.lastName = some s → jsTrim s ≠ "" → profLast u' = some (jsTrim s))
      ∧ (∀ s, p.avatar = some s → jsTrim s = "" → profAvatar u' = profAvatar u)
      ∧ (p.avatar = none → profAvatar u' = profAvatar u)
      ∧ (∀ s, p.avatar = some s → jsTrim s ≠ "" → profAvatar u' = some (jsTrim s)) := by
  have hredEnd : ∀ (w : User), w.id = u.id →
      findById (saveUser db (preSave now w)) uid = some (preSave now w) := by
    intro w hw
    exact findById_saveUser db uid u (preSave now w)
      (by rw [preSave_id, hw]) hfind
  simp only [updateMeStep, hfind, hact, Bool.not_true, Bool.false_eq_true,
    if_false]
  refine ⟨_, hredEnd _ (by cases nameField <;> rfl), ?_, ?_, ?_, ?_, ?_, ?_,
    ?_, ?_, ?_⟩
  · intro s hs hblank
    simp [profFirst, preSave_profile, hs, trimOrFallback, hblank]
  · intro hs
    simp [profFirst, preSave_profile, hs, trimOrFallback]
  · intro s hs hfilled
    simp [profFirst, preSave_profile, hs, trimOrFallback, hfilled]
  · intro s hs hblank
    simp [profLast, preSave_profile, hs, trimOrFallback, hblank]
  · intro hs
    simp [profLast, preSave_profile, hs, trimOrFallback]
  · intro s hs hfilled
    simp [profLast, preSave_profile, hs, trimOrFallback, hfilled]
  · intro s hs hblank
    simp [profAvatar, preSave_profile, hs, trimOrFallback, hblank]
  · intro hs
    simp [profAvatar, preSave_profile, hs, trimOrFallback]
  · intro s hs hfilled
    simp [profAvatar, preSave_profile, hs, trimOrFallback, hfilled]

/-- A concrete active account with stored profile names. -/
def profiledUser : User :=
  { baseUser with
    profile := some (Profile.mk (some "Old") (some "Name") none) }

/-- Closed instance of `updateProfile_never_clears`: a whitespace-only
`firstName` leaves the stored value, while a padded `avatar` is stored
trimmed. -/
theorem updateProfile_never_clears_witness :
    ∃ u', findById (updateMeStep [profiledUser] 9 1 none
        (some (ProfileInput.mk (some "  ") none (some " pic.png ")))).2 1 = some u'
      ∧ profFirst u' = some "Old"
      ∧ profLast u' = some "Name"
      ∧ profAvatar u' = some "pic.png" := by
  obtain ⟨u', h1, h2, h3, h4, h5, h6, h7, h8, h9, h10⟩ :=
    updateProfile_never_clears [profiledUser] 9 1 none
      (ProfileInput.mk (some "  ") none (some " pic.png ")) profiledUser
      (by rfl) (by rfl)
  refine ⟨u', h1, ?_, ?_, ?_⟩
  · rw [h2 "  " rfl (by decide)]; rfl
  · rw [h6 rfl]; rfl
  · rw [h10 " pic.png " rfl (by decide)]; decide

/-! ## Claim C3 — one-time codes are single-use -/

/-- C3: a verification (resp. reset) code is accepted at most once.  After
a successful `verifyEmail` the same submission against the updated store
always fails (the account is now verified and the pending record cleared);
after a successful `resetPassword` the same code always fails (the pending
reset record is cleared), whatever new password accompanies the replay;
and once `expiresAt` has passed, any submission fails in both flows. -/
theorem codes_single_use (h bh : String → String) (db : List User)
    (now now2 : Nat) (email code np np2 : String) :
    ((verifyEmailStep h db now email code).1.status = 200 →
      (verifyEmailStep h (verifyEmailStep h db now email code).2
        now2 email code).1.status = 400)
    ∧ ((resetPasswordStep h bh db now email code np).1.status = 200 →
      (resetPasswordStep h bh (resetPasswordStep h bh db now email code np).2
        now2 email code np2).1.status = 400)
    ∧ (∀ u pc, findOne db (normalizeEmail email) = some u →
        u.emailVerification = some pc → pc.expiresAt < now →
        (verifyEmailStep h db now email code).1.status = 400)
    ∧ (∀ u pc, findOne db (normalizeEmail email) = some u →
        u.passwordReset = some pc → pc.expiresAt < now →
        (resetPasswordStep h bh db now email code np).1.status = 400) := by
  refine ⟨?_, ?_, ?_, ?_⟩
  · -- verifyEmail replay
    intro hs
    cases h1 : (email == "" || code == "") with
    | true => simp [verifyEmailStep, h1, respErr] at hs
    | false =>
    cases h2 : isValidEmail email with
    | false => simp [verifyEmailStep, h1, h2, respErr] at hs
    | true =>
    cases hf : findOne db (normalizeEmail email) with
    | none => simp [verifyEmailStep, h1, h2, hf, respErr] at hs
    | some u =>
    cases h3 : u.emailVerified with
    | true => simp [verifyEmailStep, h1, h2, hf, h3, respErr] at hs
    | false =>
    cases hev : u.emailVerification with
    | none => simp [verifyEmailStep, h1, h2, hf, h3, hev, respErr] at hs
    | some pc =>
    cases h4 : (pc.codeHash == "") with
    | true => simp [verifyEmailStep, h1, h2, hf, h3, hev, h4, respErr] at hs
    | false =>
    by_cases h5 : pc.expiresAt < now
    · simp [verifyEmailStep, h1, h2, hf, h3, hev, h4, h5, respErr] at hs
    · cases h6 : (h (jsTrim code) != pc.codeHash) with
      | true => simp [verifyEmailStep, h1, h2, hf, h3, hev, h4, h5, h6, respErr] at hs
      | false =>
        have hdb2 : (verifyEmailStep h db now email code).2 =
            saveUser db (preSave now
              { u with emailVerified := true, emailVerification := none }) := by
          simp [verifyEmailStep, h1, h2, hf, h3, hev, h4, h5, h6]
        have hf2 : findOne
            (saveUser db (preSave now
              { u with emailVerified := true, emailVerification := none }))
            (normalizeEmail email) =
            some (preSave now
              { u with emailVerified := true, emailVerification := none }) :=
          findOne_saveUser db (normalizeEmail email) u _
            (by rw [preSave_id]) (by rw [preSave_email]) hf
        have hver2 : (preSave now
            { u with emailVerified := true, emailVerification := none }).emailVerified
            = true := by rw [preSave_emailVerified]
        rw [hdb2]
        simp only [verifyEmailStep, hf2, hver2]
        repeat' split
        all_goals first | rfl | simp_all
  · -- resetPassword replay
    intro hs
    cases h1 : (email == "" || code == "" || np == "") with
    | true => simp [resetPasswordStep, h1, respErr] at hs
    | false =>
    cases h2 : isValidEmail email with
    | false => simp [resetPasswordStep, h1, h2, respErr] at hs
    | true =>
    cases h3 : (validatePassword np).isValid with
    | false => simp [resetPasswordStep, h1, h2, h3, respErr] at hs
    | true =>
    cases hf : findOne db (normalizeEmail email) with
    | none => simp [resetPasswordStep, h1, h2, h3, hf, respErr] at hs
    | some u =>
    cases hpr : u.passwordReset with
    | none => simp [resetPasswordStep, h1, h2, h3, hf, hpr, respErr] at hs
    | some pc =>
    cases h4 : (pc.codeHash == "") with
    | true => simp [resetPasswordStep, h1, h2, h3, hf, hpr, h4, respErr] at hs
    | false =>
    by_cases h5 : pc.expiresAt < now
    · simp [resetPasswordStep, h1, h2, h3, hf, hpr, h4, h5, respErr] at hs
    · cases h6 : (h (jsTrim code) != pc.codeHash) with
      | true => simp [resetPasswordStep, h1, h2, h3, hf, hpr, h4, h5, h6, respErr] at hs
      | false =>
        have hdb2 : (resetPasswordStep h bh db now email code np).2 =
            saveUser db (preSave now
              { u with passwordHash := bh np, passwordReset := none }) := by
          simp [resetPasswordStep, h1, h2, h3, hf, hpr, h4, h5, h6]
        have hf2 : findOne
            (saveUser db (preSave now
              { u with passwordHash := bh np, passwordReset := none }))
            (normalizeEmail email) =
            some (preSave now
              { u with passwordHash := bh np, passwordReset := none }) :=
          findOne_saveUser db (normalizeEmail email) u _
            (by rw [preSave_id]) (by rw [preSave_email]) hf
        have hpr2 : (preSave now
            { u with passwordHash := bh np, passwordReset := none }).passwordReset
            = none := preSave_passwordReset_none now _ rfl
        rw [hdb2]
        simp only [resetPasswordStep, hf2, hpr2]
        repeat' split
        all_goals rfl
  · -- verifyEmail after expiry
    intro u pc hf hev hexp
    simp only [verifyEmailStep, hf, hev]
    repeat' split
    all_goals rfl
  · -- resetPassword after expiry
    intro u pc hf hpr hexp
    simp only [resetPasswordStep, hf, hpr]
    repeat' split
    all_goals rfl

/-- A concrete verified account with a pending reset code expiring at
instant 900000. -/
def resetUser : User :=
  { baseUser with passwordReset := some (PendingCode.mk "135790" 900000) }

/-- Closed instance of `codes_single_use`: both codes succeed once, fail on
replay against the updated store, and fail outright after expiry. -/
theorem codes_single_use_witness :
    (verifyEmailStep (fun s => s) [pendingUser] 100 "a@x.com" "246810").1.status = 200
    ∧ (verifyEmailStep (fun s => s)
        (verifyEmailStep (fun s => s) [pendingUser] 100 "a@x.com" "246810").2
        200 "a@x.com" "246810").1.status = 400
    ∧ (verifyEmailStep (fun s => s) [pendingUser] 900001 "a@x.com" "246810").1.status = 400
    ∧ (resetPasswordStep (fun s => s) (fun s => s) [resetUser] 100
        "a@x.com" "135790" "Abcd123!").1.status = 200
    ∧ (resetPasswordStep (fun s => s) (fun s => s)
        (resetPasswordStep (fun s => s) (fun s => s) [resetUser] 100
          "a@x.com" "135790" "Abcd123!").2
        200 "a@x.com" "135790" "Zyxw987?").1.status = 400
    ∧ (resetPasswordStep (fun s => s) (fun s => s) [resetUser] 900001
        "a@x.com" "135790" "Abcd123!").1.status = 400 :=
  ⟨by rfl,
   (codes_single_use (fun s => s) (fun s => s) [pendingUser] 100 200
      "a@x.com" "246810" "Abcd123!" "Zyxw987?").1 (by rfl),
   (codes_single_use (fun s => s) (fun s => s) [pendingUser] 900001 0
      "a@x.com" "246810" "Abcd123!" "Zyxw987?").2.2.1 pendingUser
      (PendingCode.mk "246810" 900000) (by rfl) (by rfl) (by decide),
   by rfl,
   (codes_single_use (fun s => s) (fun s => s) [resetUser] 100 200
      "a@x.com" "135790" "Abcd123!" "Zyxw987?").2.1 (by rfl),
   (codes_single_use (fun s => s) (fun s => s) [resetUser] 900001 0
      "a@x.com" "135790" "Abcd123!" "Zyxw987?").2.2.2 resetUser
      (PendingCode.mk "135790" 900000) (by rfl) (by rfl) (by decide)⟩

end FullstackAuth
